import Mathlib

/-!
Verification development for the Shadow-Image repository.

The repository ships a React/TypeScript frontend (image upload, light
controls, result display, API client) and documents a backend shadow
synthesis pipeline (LightModel, ContactLineEstimator, ShadowProjector,
ContactShadowRenderer, FalloffFilter, DepthWarp, Compositor).  The
backend sources are not part of the checked tree, so those components
are modelled here from the specification text; the frontend components
are embedded from the TypeScript sources.
-/

open Real Set Filter

namespace LightModel

/-- Modelled from the spec: the small positive epsilon (1 degree) that
elevations at or below zero are clamped to, to avoid infinite shadow
length.  The backend LightModel source is absent from the tree. -/
def epsilonElevation : ℝ := 1

/-- Modelled from the spec: elevation clamping of LightModel.resolve.
Values at or below 0 go to the epsilon, values above 90 go to 90, and
in-range values pass through.  The backend LightModel source is absent
from the tree. -/
noncomputable def clampElevation (e : ℝ) : ℝ :=
  if e ≤ 0 then epsilonElevation else if 90 < e then 90 else e

/-- Modelled from the spec: the angle is taken modulo 360 degrees.
The backend LightModel source is absent from the tree. -/
noncomputable def angleMod (a : ℝ) : ℝ := 360 * Int.fract (a / 360)

/-- Degrees to radians. -/
noncomputable def toRadians (deg : ℝ) : ℝ := deg * Real.pi / 180

/-- Modelled from the spec: the cotangent length factor
`lengthFactor = cot(elevation_radians) = cos / sin` of the resolved
elevation, written as the quotient the spec gives.  The backend
LightModel source is absent from the tree. -/
noncomputable def lengthFactor (elevationDeg : ℝ) : ℝ :=
  Real.cos (toRadians elevationDeg) / Real.sin (toRadians elevationDeg)

/-- Modelled from the spec: the 2D unit direction vector
`dir = (cos angle, sin angle)` of the light in the image plane, with
the angle first reduced modulo 360.  The backend LightModel source is
absent from the tree. -/
noncomputable def dir (angleDeg : ℝ) : ℝ × ℝ :=
  (Real.cos (toRadians (angleMod angleDeg)), Real.sin (toRadians (angleMod angleDeg)))

/-- Modelled from the spec: `resolve(angle, elevation)` returns the
direction vector and the cotangent length factor after clamping the
degenerate parameters.  The backend LightModel source is absent from
the tree. -/
noncomputable def resolve (angle elevation : ℝ) : (ℝ × ℝ) × ℝ :=
  (dir angle, lengthFactor (clampElevation elevation))

end LightModel

namespace LightControls

/-- Lower bound of the angle slider in LightControls.tsx (`min="0"`). -/
def angleSliderMin : ℝ := 0

/-- Upper bound of the angle slider in LightControls.tsx (`max="360"`). -/
def angleSliderMax : ℝ := 360

/-- Lower bound of the elevation slider in LightControls.tsx (`min="0"`). -/
def elevationSliderMin : ℝ := 0

/-- Upper bound of the elevation slider in LightControls.tsx (`max="90"`). -/
def elevationSliderMax : ℝ := 90

end LightControls

namespace LightModel

theorem clampElevation_of_mem {e : ℝ} (he : e ∈ Set.Ioc (0:ℝ) 90) :
    clampElevation e = e := by
  rcases he with ⟨h0, h90⟩
  unfold clampElevation
  rw [if_neg (by linarith), if_neg (by linarith)]

theorem toRadians_mem {e : ℝ} (he : e ∈ Set.Ioc (0:ℝ) 90) :
    toRadians e ∈ Set.Ioc (0:ℝ) (Real.pi / 2) := by
  rcases he with ⟨h0, h90⟩
  have hpi : 0 < Real.pi := Real.pi_pos
  constructor
  · unfold toRadians
    positivity
  · unfold toRadians
    rw [div_le_div_iff (by norm_num) (by norm_num)]
    nlinarith

/-- Cotangent (as cos/sin) is strictly decreasing on (0, pi/2]. -/
theorem cos_div_sin_strictAntiOn {x y : ℝ} (hx : 0 < x) (hxy : x < y)
    (hy : y ≤ Real.pi / 2) :
    Real.cos y / Real.sin y < Real.cos x / Real.sin x := by
  have hpi : 0 < Real.pi := Real.pi_pos
  have hxlt : x < Real.pi / 2 := lt_of_lt_of_le hxy hy
  have hsx : 0 < Real.sin x := Real.sin_pos_of_pos_of_lt_pi hx (by linarith)
  have hsy : 0 < Real.sin y := Real.sin_pos_of_pos_of_lt_pi (lt_trans hx hxy) (by linarith)
  have hcx : 0 < Real.cos x :=
    Real.cos_pos_of_mem_Ioo ⟨by linarith, hxlt⟩
  have hcy : 0 ≤ Real.cos y :=
    Real.cos_nonneg_of_mem_Icc ⟨by linarith, hy⟩
  have hclt : Real.cos y < Real.cos x :=
    Real.cos_lt_cos_of_nonneg_of_le_pi (le_of_lt hx) (by linarith) hxy
  have hslt : Real.sin x < Real.sin y :=
    Real.sin_lt_sin_of_lt_of_le_pi_div_two (by linarith) hy hxy
  rw [div_lt_div_iff hsy hsx]
  nlinarith

theorem lengthFactor_strictAntiOn :
    StrictAntiOn lengthFactor (Set.Ioc (0:ℝ) 90) := by
  intro a ha b hb hab
  have hra := toRadians_mem ha
  have hrb := toRadians_mem hb
  have hlt : toRadians a < toRadians b := by
    unfold toRadians
    have hpi : 0 < Real.pi := Real.pi_pos
    rw [div_lt_div_iff (by norm_num) (by norm_num)]
    nlinarith
  exact cos_div_sin_strictAntiOn hra.1 hlt hrb.2

theorem lengthFactor_at_45 : lengthFactor 45 = 1 := by
  have h : toRadians 45 = Real.pi / 4 := by
    unfold toRadians; ring
  unfold lengthFactor
  rw [h, Real.cos_pi_div_four, Real.sin_pi_div_four]
  rw [div_self (by positivity)]

theorem lengthFactor_at_90 : lengthFactor 90 = 0 := by
  have h : toRadians 90 = Real.pi / 2 := by
    unfold toRadians; ring
  unfold lengthFactor
  rw [h, Real.cos_pi_div_two]
  simp

theorem lengthFactor_tendsto_90 :
    Filter.Tendsto lengthFactor (nhds 90) (nhds 0) := by
  have hcont : ContinuousAt lengthFactor 90 := by
    have hlin : Continuous toRadians := by
      unfold toRadians
      continuity
    apply ContinuousAt.div
    · exact (Real.continuous_cos.comp hlin).continuousAt
    · exact (Real.continuous_sin.comp hlin).continuousAt
    · show Real.sin (toRadians 90) ≠ 0
      have h : toRadians 90 = Real.pi / 2 := by unfold toRadians; ring
      rw [h, Real.sin_pi_div_two]
      norm_num
  have := hcont.tendsto
  rwa [lengthFactor_at_90] at this

theorem tan_one_degree_pos : 0 < Real.tan (toRadians 1) := by
  have hpi : 0 < Real.pi := Real.pi_pos
  have h1 : toRadians 1 = Real.pi / 180 := by unfold toRadians; ring
  rw [h1]
  apply Real.tan_pos_of_pos_of_lt_pi_div_two (by positivity)
  rw [div_lt_div_iff (by norm_num) (by norm_num)]
  nlinarith

theorem lengthFactor_eps_gt_one : 1 < lengthFactor epsilonElevation := by
  have hpi : 0 < Real.pi := Real.pi_pos
  have h1 : toRadians 1 = Real.pi / 180 := by unfold toRadians; ring
  have hmem : toRadians 1 ∈ Set.Ioc (0:ℝ) (Real.pi / 2) := toRadians_mem (by norm_num)
  have hs : 0 < Real.sin (toRadians 1) :=
    Real.sin_pos_of_pos_of_lt_pi hmem.1 (by linarith [hmem.2])
  have hc : 0 < Real.cos (toRadians 1) := by
    apply Real.cos_pos_of_mem_Ioo
    constructor
    · linarith [hmem.1]
    · rw [h1]
      rw [div_lt_div_iff (by norm_num) (by norm_num)]
      nlinarith
  have htan : Real.tan (toRadians 1) < 1 := by
    have h45 : Real.tan (Real.pi / 4) = 1 := Real.tan_pi_div_four
    have : Real.tan (toRadians 1) < Real.tan (Real.pi / 4) := by
      apply Real.tan_lt_tan_of_nonneg_of_lt_pi_div_two (le_of_lt hmem.1)
      · linarith
      · rw [h1]
        rw [div_lt_div_iff (by norm_num) (by norm_num)]
        nlinarith
    linarith
  have htaneq : Real.tan (toRadians 1) = Real.sin (toRadians 1) / Real.cos (toRadians 1) :=
    Real.tan_eq_sin_div_cos _
  show 1 < Real.cos (toRadians 1) / Real.sin (toRadians 1)
  rw [lt_div_iff hs]
  rw [htaneq, div_lt_one hc] at htan
  linarith

theorem lengthFactor_eps_lt_60 : lengthFactor epsilonElevation < 60 := by
  have hpi : 0 < Real.pi := Real.pi_pos
  have h1 : toRadians 1 = Real.pi / 180 := by unfold toRadians; ring
  have hmem : toRadians 1 ∈ Set.Ioc (0:ℝ) (Real.pi / 2) := toRadians_mem (by norm_num)
  have hs : 0 < Real.sin (toRadians 1) :=
    Real.sin_pos_of_pos_of_lt_pi hmem.1 (by linarith [hmem.2])
  have hxlt : toRadians 1 < Real.pi / 2 := by
    rw [h1, div_lt_div_iff (by norm_num) (by norm_num)]
    nlinarith
  have hlt : toRadians 1 < Real.tan (toRadians 1) := Real.lt_tan hmem.1 hxlt
  have hgt : (1:ℝ) / 60 < Real.tan (toRadians 1) := by
    have hpi3 : (3:ℝ) < Real.pi := Real.pi_gt_three
    have : (1:ℝ) / 60 < toRadians 1 := by
      rw [h1, div_lt_div_iff (by norm_num) (by norm_num)]
      nlinarith
    linarith
  have hc : 0 < Real.cos (toRadians 1) := by
    apply Real.cos_pos_of_mem_Ioo
    exact ⟨by linarith [hmem.1], hxlt⟩
  have htaneq : Real.tan (toRadians 1) = Real.sin (toRadians 1) / Real.cos (toRadians 1) :=
    Real.tan_eq_sin_div_cos _
  show Real.cos (toRadians 1) / Real.sin (toRadians 1) < 60
  rw [htaneq, lt_div_iff hc] at hgt
  rw [div_lt_iff hs]
  nlinarith

end LightModel

/-- C1: For every elevation in (0, 90], LightModel.resolve returns
lengthFactor = cot(elevation in radians); lengthFactor is strictly
monotonically decreasing in elevation, equals 1 at elevation 45
degrees, tends to 0 as elevation tends to 90 degrees, and is large
(greater than 1) but bounded (below 60, via the 1-degree epsilon
clamp) as elevation tends to 0 degrees. -/
theorem claim_C1_lengthFactor_cotangent :
    (∀ a e : ℝ, e ∈ Set.Ioc (0:ℝ) 90 →
        (LightModel.resolve a e).2 = Real.cot (LightModel.toRadians e))
    ∧ StrictAntiOn LightModel.lengthFactor (Set.Ioc (0:ℝ) 90)
    ∧ LightModel.lengthFactor 45 = 1
    ∧ Filter.Tendsto LightModel.lengthFactor (nhds 90) (nhds 0)
    ∧ ∀ a e : ℝ, e ≤ 0 →
        (LightModel.resolve a e).2 = LightModel.lengthFactor LightModel.epsilonElevation
        ∧ 1 < LightModel.lengthFactor LightModel.epsilonElevation
        ∧ LightModel.lengthFactor LightModel.epsilonElevation < 60 := by
  refine ⟨?_, LightModel.lengthFactor_strictAntiOn, LightModel.lengthFactor_at_45,
    LightModel.lengthFactor_tendsto_90, ?_⟩
  · intro a e he
    show LightModel.lengthFactor (LightModel.clampElevation e) = _
    rw [LightModel.clampElevation_of_mem he, Real.cot_eq_cos_div_sin]
    rfl
  · intro a e he
    refine ⟨?_, LightModel.lengthFactor_eps_gt_one, LightModel.lengthFactor_eps_lt_60⟩
    show LightModel.lengthFactor (LightModel.clampElevation e) = _
    unfold LightModel.clampElevation
    rw [if_pos he]

/-- Witness for C1 at the concrete inputs elevation 45 and elevation 0. -/
theorem claim_C1_witness :
    (LightModel.resolve 0 45).2 = Real.cot (LightModel.toRadians 45)
    ∧ (LightModel.resolve 0 0).2 = LightModel.lengthFactor LightModel.epsilonElevation :=
  ⟨claim_C1_lengthFactor_cotangent.1 0 45 ⟨by norm_num, by norm_num⟩,
   (claim_C1_lengthFactor_cotangent.2.2.2.2 0 0 le_rfl).1⟩

/-- C6: For every real angle and elevation input, the light model
recovers degenerate parameters without failing: elevation at or below
0 is clamped to the small positive epsilon, elevation above 90 is
clamped to 90, the clamped elevation always lies in (0, 90], the angle
is taken modulo 360 into [0, 360) (idempotently), and the boundary
values elevation = 0 and angle = 360 that the LightControls sliders
can produce are handled (clamped to epsilon and wrapped to 0
respectively); the model is a total function, never fatal. -/
theorem claim_C6_degenerate_clamping :
    (∀ e : ℝ, e ≤ 0 → LightModel.clampElevation e = LightModel.epsilonElevation)
    ∧ (∀ e : ℝ, 90 < e → LightModel.clampElevation e = 90)
    ∧ (∀ e : ℝ, LightModel.clampElevation e ∈ Set.Ioc (0:ℝ) 90)
    ∧ (∀ a : ℝ, LightModel.angleMod a ∈ Set.Ico (0:ℝ) 360)
    ∧ (∀ a : ℝ, LightModel.angleMod (LightModel.angleMod a) = LightModel.angleMod a)
    ∧ LightModel.clampElevation LightControls.elevationSliderMin = LightModel.epsilonElevation
    ∧ LightModel.angleMod LightControls.angleSliderMax = 0 := by
  have hlow : ∀ e : ℝ, e ≤ 0 → LightModel.clampElevation e = LightModel.epsilonElevation := by
    intro e he
    unfold LightModel.clampElevation
    rw [if_pos he]
  have hmod0 : LightModel.angleMod 360 = 0 := by
    unfold LightModel.angleMod
    norm_num
  refine ⟨hlow, ?_, ?_, ?_, ?_, hlow 0 le_rfl, hmod0⟩
  · intro e he
    unfold LightModel.clampElevation
    rw [if_neg (by linarith), if_pos he]
  · intro e
    unfold LightModel.clampElevation
    split_ifs with h1 h2
    · exact ⟨by norm_num [LightModel.epsilonElevation], by norm_num [LightModel.epsilonElevation]⟩
    · exact ⟨by norm_num, le_rfl⟩
    · exact ⟨by linarith, by linarith⟩
  · intro a
    constructor
    · have := Int.fract_nonneg (a / 360)
      unfold LightModel.angleMod
      nlinarith
    · have := Int.fract_lt_one (a / 360)
      unfold LightModel.angleMod
      nlinarith
  · intro a
    unfold LightModel.angleMod
    have h : (360 : ℝ) * Int.fract (a / 360) / 360 = Int.fract (a / 360) := by
      ring
    rw [h, Int.fract_fract]

/-- Witness for C6 at the concrete degenerate inputs elevation -5,
elevation 100, elevation 0 and angle 360. -/
theorem claim_C6_witness :
    LightModel.clampElevation (-5) = LightModel.epsilonElevation
    ∧ LightModel.clampElevation 100 = 90 :=
  ⟨claim_C6_degenerate_clamping.1 (-5) (by norm_num),
   claim_C6_degenerate_clamping.2.1 100 (by norm_num)⟩

namespace FalloffFilter

/-- Modelled from the spec: the opacity attenuation curve of the
FalloffFilter, a monotonically non-increasing function of distance
from the contact line — exponential decay to a floor, bounded to
[0,1] when the floor is.  The backend FalloffFilter source is absent
from the tree. -/
noncomputable def attenuation (tau fl d : ℝ) : ℝ :=
  max fl (Real.exp (-d / tau))

/-- Modelled from the spec: the opacity the FalloffFilter assigns at a
shadow-plane pixel, `opacity(p) = rawShadow(p) * attenuation(distance(p))`.
The backend FalloffFilter source is absent from the tree. -/
noncomputable def opacityAt (raw dist : ℕ × ℕ → ℝ) (tau fl : ℝ) (p : ℕ × ℕ) : ℝ :=
  raw p * attenuation tau fl (dist p)

/-- Modelled from the spec: the effective blur radius the FalloffFilter
applies at a shadow-plane pixel, a monotonically non-decreasing
function of the contact-line distance of the pixel (a linear ramp capped at
a maximum radius).  The backend FalloffFilter source is absent from
the tree. -/
noncomputable def blurRadiusAt (dist : ℕ × ℕ → ℝ) (blurScale maxBlur : ℝ) (p : ℕ × ℕ) : ℝ :=
  min maxBlur (blurScale * dist p)

/-- Modelled from the spec: `apply(rawShadow, distanceField)` produces
the final shadow alpha layer by opacity attenuation (the blur stage
acts with radius `blurRadiusAt` and does not change per-pixel opacity
ordering).  The backend FalloffFilter source is absent from the tree. -/
noncomputable def apply (raw dist : ℕ × ℕ → ℝ) (tau fl : ℝ) : ℕ × ℕ → ℝ :=
  fun p => opacityAt raw dist tau fl p

theorem attenuation_nonneg (tau fl d : ℝ) : 0 ≤ attenuation tau fl d :=
  le_trans (le_of_lt (Real.exp_pos _)) (le_max_right _ _)

theorem attenuation_antitone {tau fl d1 d2 : ℝ} (htau : 0 < tau) (h : d1 ≤ d2) :
    attenuation tau fl d2 ≤ attenuation tau fl d1 := by
  apply max_le_max le_rfl
  apply Real.exp_le_exp.mpr
  apply div_le_div_of_nonneg_right _ htau.le
  linarith

end FalloffFilter

/-- Concrete raw-shadow buffer used to refute C2 as stated: zero at
column 0, full coverage elsewhere. -/
noncomputable def rawShadowCex : ℕ × ℕ → ℝ := fun p => if p.1 = 0 then 0 else 1

/-- Concrete contact-line distance field used to refute C2 as stated:
the column index. -/
noncomputable def distFieldCex : ℕ × ℕ → ℝ := fun p => p.1

/-- Counterexample to C2 as stated: with the opacity formula of the spec itself
`opacity(p) = rawShadow(p) * attenuation(distance(p))`, a pixel closer
to the contact line but with smaller raw shadow coverage gets strictly
smaller opacity.  Here distance((0,0)) = 0 < 1 = distance((1,0)), yet
opacity((0,0)) = 0 < opacity((1,0)). -/
theorem claim_C2_counterexample :
    distFieldCex (0, 0) < distFieldCex (1, 0)
    ∧ ¬ (FalloffFilter.opacityAt rawShadowCex distFieldCex 1 0 (1, 0)
          ≤ FalloffFilter.opacityAt rawShadowCex distFieldCex 1 0 (0, 0)) := by
  constructor
  · norm_num [distFieldCex]
  · intro h
    have h0 : FalloffFilter.opacityAt rawShadowCex distFieldCex 1 0 (0, 0) = 0 := by
      simp [FalloffFilter.opacityAt, rawShadowCex]
    have h1 : FalloffFilter.opacityAt rawShadowCex distFieldCex 1 0 (1, 0)
        = max 0 (Real.exp (-1)) := by
      simp [FalloffFilter.opacityAt, FalloffFilter.attenuation, rawShadowCex, distFieldCex]
    rw [h0, h1] at h
    have hexp : 0 < Real.exp (-1) := Real.exp_pos _
    rw [max_eq_right (le_of_lt hexp)] at h
    linarith

/-- C2 amended: for any two shadow-plane pixels p1, p2 with
distance(p1) < distance(p2), provided additionally that the raw shadow
coverage at p1 is at least that at p2 (and the latter is non-negative),
the FalloffFilter assigns opacity(p1) >= opacity(p2); and with a
non-negative blur scale the effective blur radius satisfies
blurRadius(p1) <= blurRadius(p2). -/
theorem claim_C2_monotone_falloff (raw dist : ℕ × ℕ → ℝ) (tau fl blurScale maxBlur : ℝ)
    (p1 p2 : ℕ × ℕ) (htau : 0 < tau) (hbs : 0 ≤ blurScale)
    (hraw2 : 0 ≤ raw p2) (hraw : raw p2 ≤ raw p1)
    (hdist : dist p1 < dist p2) :
    FalloffFilter.opacityAt raw dist tau fl p2 ≤ FalloffFilter.opacityAt raw dist tau fl p1
    ∧ FalloffFilter.blurRadiusAt dist blurScale maxBlur p1
        ≤ FalloffFilter.blurRadiusAt dist blurScale maxBlur p2 := by
  constructor
  · unfold FalloffFilter.opacityAt
    apply mul_le_mul hraw (FalloffFilter.attenuation_antitone htau (le_of_lt hdist))
      (FalloffFilter.attenuation_nonneg _ _ _) (le_trans hraw2 hraw)
  · unfold FalloffFilter.blurRadiusAt
    apply min_le_min le_rfl
    exact mul_le_mul_of_nonneg_left (le_of_lt hdist) hbs

/-- Witness for the amended C2 at concrete pixels (0,0) and (1,0) with
full raw coverage at both, tau = 1, floor 0, blur scale 1, max blur 8. -/
theorem claim_C2_witness :
    FalloffFilter.opacityAt (fun _ => 1) distFieldCex 1 0 (1, 0)
        ≤ FalloffFilter.opacityAt (fun _ => 1) distFieldCex 1 0 (0, 0)
    ∧ FalloffFilter.blurRadiusAt distFieldCex 1 8 (0, 0)
        ≤ FalloffFilter.blurRadiusAt distFieldCex 1 8 (1, 0) :=
  claim_C2_monotone_falloff (fun _ => 1) distFieldCex 1 0 1 8 (0, 0) (1, 0)
    (by norm_num) (by norm_num) (by norm_num) (by norm_num)
    (by norm_num [distFieldCex])

namespace ShadowProjector

/-- A single projected contribution: the shadow-plane target pixel a
subject pixel casts to, and the coverage value it carries. -/
structure Contribution where
  target : ℤ × ℤ
  value : ℚ
deriving DecidableEq

/-- Modelled from the spec: whether a projected target lies inside the
background bounds (width W, height H).  The backend ShadowProjector
source is absent from the tree. -/
def inBoundsB (W H : ℕ) (p : ℤ × ℤ) : Bool :=
  (0 ≤ p.1 && p.1 < (W:ℤ)) && (0 ≤ p.2 && p.2 < (H:ℤ))

/-- Modelled from the spec: the projector accumulates contributions
into the dense shadow-plane buffer with the saturating combine `max`
(not a sum), discarding contributions whose target is out of bounds.
The backend ShadowProjector source is absent from the tree. -/
def accumulate (W H : ℕ) (cs : List Contribution) : ℕ → ℕ → ℚ :=
  fun i j =>
    (cs.filter (fun c => inBoundsB W H c.target && (c.target == ((i:ℤ), (j:ℤ))))).foldr
      (fun c acc => max c.value acc) 0

/-- Modelled from the spec: the shadow-plane target of a subject pixel
`(x, y)` at height `h` above the contact row of its column is
`(x, y) + h * lengthFactor * dir`, rounded to a pixel.  The backend
ShadowProjector source is absent from the tree. -/
def projectTarget (x y : ℕ) (h : ℤ) (lf : ℚ) (d : ℚ × ℚ) : ℤ × ℤ :=
  (round ((x:ℚ) + (h:ℚ) * lf * d.1), round ((y:ℚ) + (h:ℚ) * lf * d.2))

/-- Modelled from the spec: the contribution (if any) of the subject
pixel `(x, y)`: pixels in a column with no contact row, at or below
the contact row, or with zero coverage cast no shadow; otherwise the
pixel contributes its mask coverage at the projected target.  The
backend ShadowProjector source is absent from the tree. -/
def contribAt (mask : ℕ → ℕ → ℚ) (yc : ℕ → Option ℕ) (lf : ℚ) (d : ℚ × ℚ)
    (x y : ℕ) : Option Contribution :=
  (yc x).bind fun c =>
    if 0 < (c:ℤ) - (y:ℤ) ∧ 0 < mask x y then
      some ⟨projectTarget x y ((c:ℤ) - (y:ℤ)) lf d, mask x y⟩
    else none

/-- Modelled from the spec: all contributions of a subject of
dimensions sw x sh.  The backend ShadowProjector source is absent from
the tree. -/
def contributions (sw sh : ℕ) (mask : ℕ → ℕ → ℚ) (yc : ℕ → Option ℕ)
    (lf : ℚ) (d : ℚ × ℚ) : List Contribution :=
  (List.range sw).bind fun x => (List.range sh).filterMap (contribAt mask yc lf d x)

/-- Modelled from the spec: `project(mask, contactLine, dir,
lengthFactor)` scatters every casting subject pixel into a dense
shadow-plane buffer sized to the background with max-accumulation.
The backend ShadowProjector source is absent from the tree. -/
def project (W H sw sh : ℕ) (mask : ℕ → ℕ → ℚ) (yc : ℕ → Option ℕ)
    (lf : ℚ) (d : ℚ × ℚ) : ℕ → ℕ → ℚ :=
  accumulate W H (contributions sw sh mask yc lf d)

theorem foldr_max_nonneg (l : List Contribution) :
    0 ≤ l.foldr (fun c acc => max c.value acc) 0 := by
  induction l with
  | nil => exact le_refl 0
  | cons c t ih => exact le_trans ih (le_max_right _ _)

theorem foldr_max_le_one (l : List Contribution)
    (h : ∀ c ∈ l, c.value ≤ 1) :
    l.foldr (fun c acc => max c.value acc) 0 ≤ 1 := by
  induction l with
  | nil => norm_num
  | cons c t ih =>
    apply max_le (h c (List.mem_cons_self c t))
    exact ih fun x hx => h x (List.mem_cons_of_mem c hx)

theorem contribAt_value {mask : ℕ → ℕ → ℚ} {yc : ℕ → Option ℕ} {lf : ℚ}
    {d : ℚ × ℚ} {x y : ℕ} {c : Contribution}
    (h : contribAt mask yc lf d x y = some c) : c.value = mask x y := by
  unfold contribAt at h
  cases hyc : yc x with
  | none => rw [hyc] at h; exact absurd h (by simp)
  | some cy =>
    rw [hyc, Option.some_bind] at h
    by_cases hcond : 0 < (cy:ℤ) - (y:ℤ) ∧ 0 < mask x y
    · rw [if_pos hcond] at h
      injection h with h
      rw [← h]
    · rw [if_neg hcond] at h
      exact absurd h (by simp)

theorem mem_contributions_value {sw sh : ℕ} {mask : ℕ → ℕ → ℚ}
    {yc : ℕ → Option ℕ} {lf : ℚ} {d : ℚ × ℚ} {c : Contribution}
    (h : c ∈ contributions sw sh mask yc lf d) :
    ∃ x y, x < sw ∧ y < sh ∧ c.value = mask x y := by
  unfold contributions at h
  rw [List.mem_bind] at h
  rcases h with ⟨x, hx, hmem⟩
  rw [List.mem_filterMap] at hmem
  rcases hmem with ⟨y, hy, hsome⟩
  exact ⟨x, y, List.mem_range.mp hx, List.mem_range.mp hy, contribAt_value hsome⟩

end ShadowProjector

/-- C3: For every subject mask (including masks whose silhouette
projects many source pixels onto the same target, such as a C shape),
the projector accumulates overlapping contributions with the
saturating combine `max`, so every pixel of the projected shadow-plane
buffer stays in [0,1] and never exceeds 1. -/
theorem claim_C3_no_overflow_on_overlap (W H sw sh : ℕ) (mask : ℕ → ℕ → ℚ)
    (yc : ℕ → Option ℕ) (lf : ℚ) (d : ℚ × ℚ)
    (hm : ∀ x, x < sw → ∀ y, y < sh → 0 ≤ mask x y ∧ mask x y ≤ 1) :
    ∀ i j, 0 ≤ ShadowProjector.project W H sw sh mask yc lf d i j
        ∧ ShadowProjector.project W H sw sh mask yc lf d i j ≤ 1 := by
  intro i j
  unfold ShadowProjector.project ShadowProjector.accumulate
  refine ⟨ShadowProjector.foldr_max_nonneg _, ShadowProjector.foldr_max_le_one _ ?_⟩
  intro c hc
  have hmem := List.mem_of_mem_filter hc
  rcases ShadowProjector.mem_contributions_value hmem with ⟨x, y, hx, hy, hval⟩
  rw [hval]
  exact (hm x hx y hy).2

/-- Witness for C3 on a concrete 3x3 C-shaped mask whose columns all
project onto the same shadow-plane pixels under a long horizontal
shadow (length factor 5, direction (1,0)), evaluated at pixel (7,2). -/
theorem claim_C3_witness :
    0 ≤ ShadowProjector.project 12 3 3 3
          (fun x y => if x = 1 ∧ y = 1 then 0 else 1)
          (fun _ => some 2) 5 (1, 0) 7 2
    ∧ ShadowProjector.project 12 3 3 3
          (fun x y => if x = 1 ∧ y = 1 then 0 else 1)
          (fun _ => some 2) 5 (1, 0) 7 2 ≤ 1 :=
  claim_C3_no_overflow_on_overlap 12 3 3 3
    (fun x y => if x = 1 ∧ y = 1 then 0 else 1)
    (fun _ => some 2) 5 (1, 0) (by decide) 7 2

/-- C7: A subject pixel whose projected shadow-plane target falls
outside the background bounds is discarded: it contributes to no pixel
of the output buffer (every pixel of the buffer equals what it would
be without that contribution), so the out-of-bounds write is neither
wrapped around the canvas nor surfaced as an error, and the rest of
the projection is unaffected. -/
theorem claim_C7_out_of_bounds_clipped (W H : ℕ) (c : ShadowProjector.Contribution)
    (cs : List ShadowProjector.Contribution)
    (h : ShadowProjector.inBoundsB W H c.target = false) :
    ∀ i j, ShadowProjector.accumulate W H (c :: cs) i j
        = ShadowProjector.accumulate W H cs i j := by
  intro i j
  unfold ShadowProjector.accumulate
  rw [List.filter_cons]
  simp [h]

/-- Witness for C7: a contribution targeting (-1, 5), outside a 4x4
background, is dropped; the buffer at (0,0) is unchanged. -/
theorem claim_C7_witness :
    ShadowProjector.accumulate 4 4
        [⟨(-1, 5), 1⟩, ⟨(0, 0), 1/2⟩] 0 0
      = ShadowProjector.accumulate 4 4 [⟨(0, 0), 1/2⟩] 0 0 :=
  claim_C7_out_of_bounds_clipped 4 4 ⟨(-1, 5), 1⟩ [⟨(0, 0), 1/2⟩] (by decide) 0 0

namespace DepthWarp

/-- A depth map: a 1-channel buffer of relative surface heights. -/
def DepthMap := ℕ → ℕ → ℚ

/-- Modelled from the spec: clamp a warped position so it remains
within the background bounds (clip, as in the projector).  The backend
DepthWarp source is absent from the tree. -/
def clampPos (W H : ℕ) (p : ℤ × ℤ) : ℤ × ℤ :=
  (max 0 (min ((W:ℤ) - 1) p.1), max 0 (min ((H:ℤ) - 1) p.2))

/-- Modelled from the spec: sample the depth map at a shadow-plane
position (0 outside the map).  The backend DepthWarp source is absent
from the tree. -/
def sampleDepth (dm : DepthMap) (p : ℤ × ℤ) : ℚ :=
  if 0 ≤ p.1 ∧ 0 ≤ p.2 then dm p.1.toNat p.2.toNat else 0

/-- Modelled from the spec: warp one projected shadow-plane pixel by
an offset proportional to `(localDepth - referenceDepth)` along the
light direction, with the result clamped into the background bounds.
The backend DepthWarp source is absent from the tree. -/
def warpPoint (dm : DepthMap) (refDepth k : ℚ) (d : ℚ × ℚ) (W H : ℕ)
    (p : ℤ × ℤ) : ℤ × ℤ :=
  clampPos W H
    (p.1 + round (k * (sampleDepth dm p - refDepth) * d.1),
     p.2 + round (k * (sampleDepth dm p - refDepth) * d.2))

/-- Modelled from the spec: `warp(shadowPositions, depthMap)`.  The
stage is only invoked when a depth map is supplied; with an absent
depth map the input positions are used unchanged.  The backend
DepthWarp source is absent from the tree. -/
def warp (dmOpt : Option DepthMap) (refDepth k : ℚ) (d : ℚ × ℚ) (W H : ℕ)
    (ps : List (ℤ × ℤ)) : List (ℤ × ℤ) :=
  match dmOpt with
  | none => ps
  | some dm => ps.map (warpPoint dm refDepth k d W H)

end DepthWarp

/-- The list of shadow-plane positions produced by the projector. -/
def projectedPositions (sw sh : ℕ) (mask : ℕ → ℕ → ℚ) (yc : ℕ → Option ℕ)
    (lf : ℚ) (d : ℚ × ℚ) : List (ℤ × ℤ) :=
  (ShadowProjector.contributions sw sh mask yc lf d).map (fun c => c.target)

/-- The pipeline with the optional DepthWarp stage present: the
positions of the projector pass through `warp` with the optional depth map. -/
def shadowPositionsWithWarpStage (dmOpt : Option DepthWarp.DepthMap)
    (refDepth k : ℚ) (W H sw sh : ℕ) (mask : ℕ → ℕ → ℚ) (yc : ℕ → Option ℕ)
    (lf : ℚ) (d : ℚ × ℚ) : List (ℤ × ℤ) :=
  DepthWarp.warp dmOpt refDepth k d W H (projectedPositions sw sh mask yc lf d)

/-- The pipeline with the DepthWarp stage skipped entirely: the
positions of the projector are used as-is, the warp stage never appears. -/
def shadowPositionsNoWarpStage (W H sw sh : ℕ) (mask : ℕ → ℕ → ℚ)
    (yc : ℕ → Option ℕ) (lf : ℚ) (d : ℚ × ℚ) : List (ℤ × ℤ) :=
  projectedPositions sw sh mask yc lf d

/-- C4: When no depth map is supplied, the shadow positions of the pipeline
are pixel-identical to running without the DepthWarp stage at all:
warp with absent depth is the exact identity on the output of the
ShadowProjector, for every input. -/
theorem claim_C4_identity_on_absent_depth (refDepth k : ℚ) (W H sw sh : ℕ)
    (mask : ℕ → ℕ → ℚ) (yc : ℕ → Option ℕ) (lf : ℚ) (d : ℚ × ℚ) :
    shadowPositionsWithWarpStage none refDepth k W H sw sh mask yc lf d
      = shadowPositionsNoWarpStage W H sw sh mask yc lf d := rfl

namespace ContactLineEstimator

/-- Modelled from the spec: the fixed mask-coverage threshold (default
0.5) above which a row counts as occupied.  The backend
ContactLineEstimator source is absent from the tree. -/
def threshold : ℚ := 1/2

/-- Modelled from the spec: `estimate(mask)` scans each column from
the bottom upward and records the first row whose coverage meets the
threshold; columns with no coverage anywhere get none.  The backend
ContactLineEstimator source is absent from the tree. -/
def estimate (H : ℕ) (mask : ℕ → ℕ → ℚ) (x : ℕ) : Option ℕ :=
  ((List.range H).reverse).find? (fun y => threshold ≤ mask x y)

theorem estimate_eq_none_of_zero {H : ℕ} {mask : ℕ → ℕ → ℚ} {x : ℕ}
    (h : ∀ y, y < H → mask x y = 0) : estimate H mask x = none := by
  apply List.find?_eq_none.mpr
  intro y hy
  rw [List.mem_reverse, List.mem_range] at hy
  rw [h y hy]
  norm_num [threshold]

end ContactLineEstimator

namespace ContactShadowRenderer

/-- Modelled from the spec: the contact shadow intensity at a
background pixel, `I0 * exp(-distance / tauC)` from the per-column
contact point, and zero for columns with no contact.  The backend
ContactShadowRenderer source is absent from the tree. -/
noncomputable def intensity (I0 tauC : ℝ) (yc : ℕ → Option ℕ) (i j : ℕ) : ℝ :=
  (yc i).elim 0 fun cy => I0 * Real.exp (-|(j:ℝ) - (cy:ℝ)| / tauC)

end ContactShadowRenderer

/-- Modelled from the spec: the per-pixel distance to the per-column
contact point, used by the FalloffFilter (zero for columns excluded
from per-column operations).  The backend source is absent from the
tree. -/
noncomputable def distFieldOf (yc : ℕ → Option ℕ) (i j : ℕ) : ℝ :=
  (yc i).elim 0 fun cy => |(j:ℝ) - (cy:ℝ)|

/-- Modelled from the spec: the raw (pre-falloff) shadow, the `max`
union of the projector buffer and the contact shadow.  The backend
source is absent from the tree. -/
noncomputable def rawShadowOf (W H : ℕ) (mask : ℕ → ℕ → ℚ) (yc : ℕ → Option ℕ)
    (lf : ℚ) (dq : ℚ × ℚ) (I0 tauC : ℝ) (i j : ℕ) : ℝ :=
  max ((ShadowProjector.project W H W H mask yc lf dq i j : ℚ) : ℝ)
    (ContactShadowRenderer.intensity I0 tauC yc i j)

namespace Compositor

/-- An RGB color sample. -/
@[ext]
structure RGB where
  r : ℝ
  g : ℝ
  b : ℝ

/-- Modelled from the spec: alpha-blend the near-black shadow tint
over a background pixel at the opacity of the shadow layer.  The backend
Compositor source is absent from the tree. -/
noncomputable def blendShadowPixel (bg : RGB) (alpha : ℝ) (tint : RGB) : RGB :=
  ⟨tint.r * alpha + bg.r * (1 - alpha),
   tint.g * alpha + bg.g * (1 - alpha),
   tint.b * alpha + bg.b * (1 - alpha)⟩

/-- Modelled from the spec: composite a foreground pixel over a base
pixel using the alpha of the foreground itself.  The backend Compositor source
is absent from the tree. -/
noncomputable def overPixel (fg : RGB) (alpha : ℝ) (base : RGB) : RGB :=
  ⟨fg.r * alpha + base.r * (1 - alpha),
   fg.g * alpha + base.g * (1 - alpha),
   fg.b * alpha + base.b * (1 - alpha)⟩

theorem blendShadowPixel_zero (bg tint : RGB) : blendShadowPixel bg 0 tint = bg := by
  ext <;> simp [blendShadowPixel]

theorem overPixel_zero (fg base : RGB) : overPixel fg 0 base = base := by
  ext <;> simp [overPixel]

end Compositor

/-- Modelled from the spec: the full pipeline for one request over a
subject mask already aligned to the W x H coordinate space of the
background: contact line, projection, contact shadow, falloff, and
the three compositor outputs (composite, shadow-only layer, and a
mask-debug rendering of the mask over a contrasting fill).  The
backend sources are absent from the tree. -/
noncomputable def runPipeline (W H : ℕ) (bg subj : ℕ → ℕ → Compositor.RGB)
    (mask : ℕ → ℕ → ℚ) (lf : ℚ) (dq : ℚ × ℚ) (I0 tauC tau fl : ℝ)
    (tint debugFg debugBg : Compositor.RGB) :
    (ℕ → ℕ → Compositor.RGB) × (ℕ → ℕ → ℝ) × (ℕ → ℕ → Compositor.RGB) :=
  let yc := ContactLineEstimator.estimate H mask
  let sl := fun i j =>
    FalloffFilter.apply (fun p => rawShadowOf W H mask yc lf dq I0 tauC p.1 p.2)
      (fun p => distFieldOf yc p.1 p.2) tau fl (i, j)
  (fun i j =>
      Compositor.overPixel (subj i j) ((mask i j : ℝ))
        (Compositor.blendShadowPixel (bg i j) (sl i j) tint),
   sl,
   fun i j => Compositor.overPixel debugFg ((mask i j : ℝ)) debugBg)

theorem project_zero_of_empty {W H : ℕ} {mask : ℕ → ℕ → ℚ}
    {yc : ℕ → Option ℕ} {lf : ℚ} {dq : ℚ × ℚ}
    (hyc : ∀ x, x < W → yc x = none) :
    ∀ i j, ShadowProjector.project W H W H mask yc lf dq i j = 0 := by
  intro i j
  have hnil : ShadowProjector.contributions W H mask yc lf dq = [] := by
    unfold ShadowProjector.contributions
    rw [List.bind_eq_nil]
    intro x hx
    rw [List.filterMap_eq_nil]
    intro y _
    unfold ShadowProjector.contribAt
    rw [hyc x (List.mem_range.mp hx), Option.none_bind]
  unfold ShadowProjector.project
  rw [hnil]
  rfl

/-- C5: For every input whose subject mask has zero coverage, the
pipeline does not fail (it is a total function) and produces a
composite equal to the background at every pixel, a shadow layer that
is all-zero, and a mask-debug image that is the bare contrasting fill
(no subject marked anywhere). -/
theorem claim_C5_empty_mask (W H : ℕ) (bg subj : ℕ → ℕ → Compositor.RGB)
    (mask : ℕ → ℕ → ℚ) (lf : ℚ) (dq : ℚ × ℚ) (I0 tauC tau fl : ℝ)
    (tint debugFg debugBg : Compositor.RGB)
    (hm : ∀ x, x < W → ∀ y, y < H → mask x y = 0) :
    ∀ i, i < W → ∀ j, j < H →
      (runPipeline W H bg subj mask lf dq I0 tauC tau fl tint debugFg debugBg).1 i j = bg i j
      ∧ (runPipeline W H bg subj mask lf dq I0 tauC tau fl tint debugFg debugBg).2.1 i j = 0
      ∧ (runPipeline W H bg subj mask lf dq I0 tauC tau fl tint debugFg debugBg).2.2 i j
          = debugBg := by
  intro i hi j hj
  have hycn : ∀ x, x < W → ContactLineEstimator.estimate H mask x = none := fun x hx =>
    ContactLineEstimator.estimate_eq_none_of_zero (hm x hx)
  have hproj : ShadowProjector.project W H W H mask
      (ContactLineEstimator.estimate H mask) lf dq i j = 0 :=
    project_zero_of_empty hycn i j
  have hint : ContactShadowRenderer.intensity I0 tauC
      (ContactLineEstimator.estimate H mask) i j = 0 := by
    unfold ContactShadowRenderer.intensity
    rw [hycn i hi]
    rfl
  have hraw : rawShadowOf W H mask (ContactLineEstimator.estimate H mask) lf dq I0 tauC i j
      = 0 := by
    unfold rawShadowOf
    rw [hproj, hint]
    norm_num
  have hsl : FalloffFilter.apply
      (fun p => rawShadowOf W H mask (ContactLineEstimator.estimate H mask) lf dq I0 tauC p.1 p.2)
      (fun p => distFieldOf (ContactLineEstimator.estimate H mask) p.1 p.2) tau fl (i, j)
      = 0 := by
    unfold FalloffFilter.apply FalloffFilter.opacityAt
    show rawShadowOf W H mask (ContactLineEstimator.estimate H mask) lf dq I0 tauC i j * _ = 0
    rw [hraw, zero_mul]
  have hmz : (mask i j : ℝ) = 0 := by
    rw [hm i hi j hj]
    norm_num
  refine ⟨?_, hsl, ?_⟩
  · show Compositor.overPixel (subj i j) ((mask i j : ℝ))
        (Compositor.blendShadowPixel (bg i j)
          (FalloffFilter.apply
            (fun p => rawShadowOf W H mask (ContactLineEstimator.estimate H mask) lf dq I0 tauC p.1 p.2)
            (fun p => distFieldOf (ContactLineEstimator.estimate H mask) p.1 p.2) tau fl (i, j))
          tint) = bg i j
    rw [hsl, Compositor.blendShadowPixel_zero, hmz, Compositor.overPixel_zero]
  · show Compositor.overPixel debugFg ((mask i j : ℝ)) debugBg = debugBg
    rw [hmz, Compositor.overPixel_zero]

/-- Witness for C5 on a concrete all-zero 2x2 mask over a concrete
background: the composite pixel (0,0) equals the background pixel, the
shadow layer there is zero, and the mask-debug pixel is the bare fill. -/
theorem claim_C5_witness :
    (runPipeline 2 2 (fun _ _ => ⟨1, 2, 3⟩) (fun _ _ => ⟨4, 5, 6⟩) (fun _ _ => 0)
        1 (1, 0) (9/10) 1 1 0 ⟨0, 0, 0⟩ ⟨1, 0, 0⟩ ⟨0, 1, 0⟩).1 0 0 = ⟨1, 2, 3⟩
    ∧ (runPipeline 2 2 (fun _ _ => ⟨1, 2, 3⟩) (fun _ _ => ⟨4, 5, 6⟩) (fun _ _ => 0)
        1 (1, 0) (9/10) 1 1 0 ⟨0, 0, 0⟩ ⟨1, 0, 0⟩ ⟨0, 1, 0⟩).2.1 0 0 = 0
    ∧ (runPipeline 2 2 (fun _ _ => ⟨1, 2, 3⟩) (fun _ _ => ⟨4, 5, 6⟩) (fun _ _ => 0)
        1 (1, 0) (9/10) 1 1 0 ⟨0, 0, 0⟩ ⟨1, 0, 0⟩ ⟨0, 1, 0⟩).2.2 0 0 = ⟨0, 1, 0⟩ :=
  claim_C5_empty_mask 2 2 (fun _ _ => ⟨1, 2, 3⟩) (fun _ _ => ⟨4, 5, 6⟩) (fun _ _ => 0)
    1 (1, 0) (9/10) 1 1 0 ⟨0, 0, 0⟩ ⟨1, 0, 0⟩ ⟨0, 1, 0⟩
    (fun x _ y _ => rfl) 0 (by norm_num) 0 (by norm_num)

namespace Frontend

/-- An uploaded file handle (the frontend only passes File objects
through; their content is irrelevant to the control flow). -/
structure UploadedFile where
  id : ℕ
deriving DecidableEq

/-- The ProcessResponse interface of src/frontend/src/services/api.ts:
the client response type of a processing request carries the three
output image names and a message. -/
structure ProcessResponse where
  composite : String
  shadow_only : String
  mask_debug : String
  message : String

/-- API_BASE_URL of api.ts. -/
def API_BASE_URL : String := "/api"

/-- api.getOutputUrl of api.ts: the URL an output file is fetched from. -/
def getOutputUrl (filename : String) : String :=
  API_BASE_URL ++ "/outputs/" ++ filename

/-- The POST request api.processImages of api.ts assembles: the target
URL and the multipart form fields. -/
structure ProcessRequest where
  url : String
  foreground : UploadedFile
  background : UploadedFile
  light_angle : ℚ
  light_elevation : ℚ
  generate_depth : Bool
  depth_map : Option UploadedFile
deriving DecidableEq

/-- api.processImages of api.ts: builds the form data and posts it to
API_BASE_URL/process. -/
def processImages (fg bg : UploadedFile) (lightAngle lightElevation : ℚ)
    (depthMap : Option UploadedFile) (generateDepth : Bool) : ProcessRequest :=
  { url := API_BASE_URL ++ "/process", foreground := fg, background := bg,
    light_angle := lightAngle, light_elevation := lightElevation,
    generate_depth := generateDepth, depth_map := depthMap }

/-- The React state of the App components in src/unnamed/part_001. -/
structure AppState where
  foregroundFile : Option UploadedFile
  backgroundFile : Option UploadedFile
  depthMapFile : Option UploadedFile
  generateDepth : Bool
  lightAngle : ℚ
  lightElevation : ℚ
  compositeUrl : Option String
  shadowOnlyUrl : Option String
  maskDebugUrl : Option String
  loading : Bool
  error : Option String
deriving DecidableEq

/-- JavaScript `a || b` on an optional string: null, undefined and the
empty string are falsy. -/
def jsOrStr (a : Option String) (b : String) : String :=
  match a with
  | some s => if s = "" then b else s
  | none => b

/-- The catch-branch error text of both App components:
the response detail if truthy, else the error message if truthy,
else the fixed fallback text. -/
def resolveErrorMessage (detail message : Option String) : String :=
  jsOrStr detail (jsOrStr message "Failed to generate shadow")

/-- The outcome of the awaited api.processImages call in the first App
component: success observes one Date.now() timestamp, failure carries
the optional response detail and message of the error. -/
inductive RequestOutcome where
  | success (timestamp : ℕ)
  | failure (detail message : Option String)

/-- The outcome for the second App component, which reads Date.now()
three times, once per result URL. -/
inductive RequestOutcomeV2 where
  | success (t1 t2 t3 : ℕ)
  | failure (detail message : Option String)

/-- handleGenerate of the first App component in src/unnamed/part_001:
if either file is missing, set the error and return without a request;
otherwise set loading, clear the error and the three result URLs, issue
the request, on success set the three result URLs from
api.getOutputUrl with one shared cache-busting timestamp, on failure
set the resolved error message, and finally clear loading.  Returns
the new state and the request issued, if any. -/
def handleGenerate (s : AppState) (outcome : RequestOutcome) :
    AppState × Option ProcessRequest :=
  match s.foregroundFile, s.backgroundFile with
  | some fg, some bg =>
    let s1 :=
      { s with
        loading := true
        error := none
        compositeUrl := none
        shadowOnlyUrl := none
        maskDebugUrl := none }
    let req := processImages fg bg s.lightAngle s.lightElevation s.depthMapFile false
    let s2 :=
      match outcome with
      | .success ts =>
        { s1 with
          compositeUrl := some (getOutputUrl "composite.png" ++ "?t=" ++ toString ts)
          shadowOnlyUrl := some (getOutputUrl "shadow_only.png" ++ "?t=" ++ toString ts)
          maskDebugUrl := some (getOutputUrl "mask_debug.png" ++ "?t=" ++ toString ts) }
      | .failure detail message =>
        { s1 with error := some (resolveErrorMessage detail message) }
    ({ s2 with loading := false }, some req)
  | _, _ =>
    ({ s with error := some "Please upload both foreground and background images" }, none)

/-- handleGenerate of the second App component in src/unnamed/part_001:
identical guard, clearing, success and failure handling, but the
request carries no depth map and the generateDepth flag, and each
result URL gets its own Date.now() timestamp. -/
def handleGenerateV2 (s : AppState) (outcome : RequestOutcomeV2) :
    AppState × Option ProcessRequest :=
  match s.foregroundFile, s.backgroundFile with
  | some fg, some bg =>
    let s1 :=
      { s with
        loading := true
        error := none
        compositeUrl := none
        shadowOnlyUrl := none
        maskDebugUrl := none }
    let req := processImages fg bg s.lightAngle s.lightElevation none s.generateDepth
    let s2 :=
      match outcome with
      | .success t1 t2 t3 =>
        { s1 with
          compositeUrl := some (getOutputUrl "composite.png" ++ "?t=" ++ toString t1)
          shadowOnlyUrl := some (getOutputUrl "shadow_only.png" ++ "?t=" ++ toString t2)
          maskDebugUrl := some (getOutputUrl "mask_debug.png" ++ "?t=" ++ toString t3) }
      | .failure detail message =>
        { s1 with error := some (resolveErrorMessage detail message) }
    ({ s2 with loading := false }, some req)
  | _, _ =>
    ({ s with error := some "Please upload both foreground and background images" }, none)

/-- The disabled condition of the generate button, identical in both App
components: `disabled={loading || !foregroundFile || !backgroundFile}`. -/
def generateDisabled (s : AppState) : Bool :=
  s.loading || s.foregroundFile.isNone || s.backgroundFile.isNone

/-- A concrete app state with both images uploaded. -/
def sampleStateBoth : AppState :=
  ⟨some ⟨1⟩, some ⟨2⟩, none, false, 45, 30, none, none, none, false, none⟩

/-- A concrete app state with the foreground image missing and stale
result URLs present. -/
def sampleStateNoFg : AppState :=
  ⟨none, some ⟨2⟩, none, false, 45, 30, some "a", some "b", some "c", false, none⟩

end Frontend

/-- C8: Every successful processing request exposes exactly the three
output images composite, shadow_only and mask_debug: the client
response type carries exactly those three fields (plus a message), and
on success both App components fetch the results under exactly the
filenames composite.png, shadow_only.png and mask_debug.png via
api.getOutputUrl, which resolves them under /api/outputs/. -/
theorem claim_C8_three_named_outputs :
    (∀ r : Frontend.ProcessResponse,
        r = ⟨r.composite, r.shadow_only, r.mask_debug, r.message⟩)
    ∧ Frontend.getOutputUrl "composite.png" = "/api/outputs/composite.png"
    ∧ Frontend.getOutputUrl "shadow_only.png" = "/api/outputs/shadow_only.png"
    ∧ Frontend.getOutputUrl "mask_debug.png" = "/api/outputs/mask_debug.png"
    ∧ (∀ (s : Frontend.AppState) (fg bg : Frontend.UploadedFile) (ts : ℕ),
        s.foregroundFile = some fg → s.backgroundFile = some bg →
          (Frontend.handleGenerate s (.success ts)).1.compositeUrl
              = some (Frontend.getOutputUrl "composite.png" ++ "?t=" ++ toString ts)
          ∧ (Frontend.handleGenerate s (.success ts)).1.shadowOnlyUrl
              = some (Frontend.getOutputUrl "shadow_only.png" ++ "?t=" ++ toString ts)
          ∧ (Frontend.handleGenerate s (.success ts)).1.maskDebugUrl
              = some (Frontend.getOutputUrl "mask_debug.png" ++ "?t=" ++ toString ts))
    ∧ (∀ (s : Frontend.AppState) (fg bg : Frontend.UploadedFile) (t1 t2 t3 : ℕ),
        s.foregroundFile = some fg → s.backgroundFile = some bg →
          (Frontend.handleGenerateV2 s (.success t1 t2 t3)).1.compositeUrl
              = some (Frontend.getOutputUrl "composite.png" ++ "?t=" ++ toString t1)
          ∧ (Frontend.handleGenerateV2 s (.success t1 t2 t3)).1.shadowOnlyUrl
              = some (Frontend.getOutputUrl "shadow_only.png" ++ "?t=" ++ toString t2)
          ∧ (Frontend.handleGenerateV2 s (.success t1 t2 t3)).1.maskDebugUrl
              = some (Frontend.getOutputUrl "mask_debug.png" ++ "?t=" ++ toString t3)) := by
  refine ⟨fun r => rfl, rfl, rfl, rfl, ?_, ?_⟩
  · intro s fg bg ts hfg hbg
    simp [Frontend.handleGenerate, hfg, hbg]
  · intro s fg bg t1 t2 t3 hfg hbg
    simp [Frontend.handleGenerateV2, hfg, hbg]

/-- Witness for C8 on a concrete state with both files uploaded and
concrete timestamps. -/
theorem claim_C8_witness :
    (Frontend.handleGenerate Frontend.sampleStateBoth (.success 7)).1.compositeUrl
        = some (Frontend.getOutputUrl "composite.png" ++ "?t=" ++ toString 7)
    ∧ (Frontend.handleGenerateV2 Frontend.sampleStateBoth (.success 7 8 9)).1.maskDebugUrl
        = some (Frontend.getOutputUrl "mask_debug.png" ++ "?t=" ++ toString 9) :=
  ⟨(claim_C8_three_named_outputs.2.2.2.2.1 Frontend.sampleStateBoth ⟨1⟩ ⟨2⟩ 7 rfl rfl).1,
   (claim_C8_three_named_outputs.2.2.2.2.2 Frontend.sampleStateBoth ⟨1⟩ ⟨2⟩ 7 8 9 rfl rfl).2.2⟩

/-- C9: If either the foreground or the background file is absent,
handleGenerate (in both App components) issues no processing request:
it sets the error message and returns, leaving the result URLs and
loading flag untouched, and the generate button is disabled in that
state; conversely, whenever a request is issued, both files were
present and are the ones sent. -/
theorem claim_C9_no_request_without_both_files :
    (∀ (s : Frontend.AppState) (o : Frontend.RequestOutcome) (o2 : Frontend.RequestOutcomeV2),
        s.foregroundFile = none ∨ s.backgroundFile = none →
          (Frontend.handleGenerate s o).2 = none
          ∧ (Frontend.handleGenerate s o).1.error
              = some "Please upload both foreground and background images"
          ∧ (Frontend.handleGenerate s o).1.compositeUrl = s.compositeUrl
          ∧ (Frontend.handleGenerate s o).1.shadowOnlyUrl = s.shadowOnlyUrl
          ∧ (Frontend.handleGenerate s o).1.maskDebugUrl = s.maskDebugUrl
          ∧ (Frontend.handleGenerate s o).1.loading = s.loading
          ∧ (Frontend.handleGenerateV2 s o2).2 = none
          ∧ (Frontend.handleGenerateV2 s o2).1.error
              = some "Please upload both foreground and background images"
          ∧ Frontend.generateDisabled s = true)
    ∧ (∀ (s : Frontend.AppState) (o : Frontend.RequestOutcome) (req : Frontend.ProcessRequest),
        (Frontend.handleGenerate s o).2 = some req →
          ∃ fg bg, s.foregroundFile = some fg ∧ s.backgroundFile = some bg
            ∧ req.foreground = fg ∧ req.background = bg)
    ∧ (∀ (s : Frontend.AppState) (o2 : Frontend.RequestOutcomeV2) (req : Frontend.ProcessRequest),
        (Frontend.handleGenerateV2 s o2).2 = some req →
          ∃ fg bg, s.foregroundFile = some fg ∧ s.backgroundFile = some bg
            ∧ req.foreground = fg ∧ req.background = bg) := by
  refine ⟨?_, ?_, ?_⟩
  · intro s o o2 h
    cases hfg : s.foregroundFile with
    | none =>
      cases hbg : s.backgroundFile <;>
        simp [Frontend.handleGenerate, Frontend.handleGenerateV2,
          Frontend.generateDisabled, hfg, hbg]
    | some fg =>
      cases hbg : s.backgroundFile with
      | none =>
        simp [Frontend.handleGenerate, Frontend.handleGenerateV2,
          Frontend.generateDisabled, hfg, hbg]
      | some bg =>
        rw [hfg, hbg] at h
        rcases h with h | h <;> exact absurd h (by simp)
  · intro s o req h
    cases hfg : s.foregroundFile with
    | none => rw [Frontend.handleGenerate, hfg] at h; exact absurd h (by simp)
    | some fg =>
      cases hbg : s.backgroundFile with
      | none => rw [Frontend.handleGenerate, hfg, hbg] at h; exact absurd h (by simp)
      | some bg =>
        refine ⟨fg, bg, rfl, rfl, ?_, ?_⟩ <;>
        · rw [Frontend.handleGenerate, hfg, hbg] at h
          cases o <;>
            simp only [Option.some.injEq] at h <;>
            rw [← h] <;> rfl
  · intro s o2 req h
    cases hfg : s.foregroundFile with
    | none => rw [Frontend.handleGenerateV2, hfg] at h; exact absurd h (by simp)
    | some fg =>
      cases hbg : s.backgroundFile with
      | none => rw [Frontend.handleGenerateV2, hfg, hbg] at h; exact absurd h (by simp)
      | some bg =>
        refine ⟨fg, bg, rfl, rfl, ?_, ?_⟩ <;>
        · rw [Frontend.handleGenerateV2, hfg, hbg] at h
          cases o2 <;>
            simp only [Option.some.injEq] at h <;>
            rw [← h] <;> rfl

/-- Witness for C9 on a concrete state missing the foreground file:
no request is issued, the error is set, the stale result URLs are
untouched, and the generate button is disabled. -/
theorem claim_C9_witness :
    (Frontend.handleGenerate Frontend.sampleStateNoFg (.success 7)).2 = none
    ∧ (Frontend.handleGenerate Frontend.sampleStateNoFg (.success 7)).1.error
        = some "Please upload both foreground and background images"
    ∧ Frontend.generateDisabled Frontend.sampleStateNoFg = true :=
  let h := claim_C9_no_request_without_both_files.1 Frontend.sampleStateNoFg
    (.success 7) (.success 7 7 7) (Or.inl rfl)
  ⟨h.1, h.2.1, h.2.2.2.2.2.2.2.2⟩

/-- C10: After every failed processing request (both files present,
outcome a failure), all three result URLs are none in the resulting
state of both App components — handleGenerate clears them before the
request and assigns them only on success — the error carries the
resolved message, and loading is cleared. -/
theorem claim_C10_failure_clears_urls :
    (∀ (s : Frontend.AppState) (fg bg : Frontend.UploadedFile) (detail message : Option String),
        s.foregroundFile = some fg → s.backgroundFile = some bg →
          (Frontend.handleGenerate s (.failure detail message)).1.compositeUrl = none
          ∧ (Frontend.handleGenerate s (.failure detail message)).1.shadowOnlyUrl = none
          ∧ (Frontend.handleGenerate s (.failure detail message)).1.maskDebugUrl = none
          ∧ (Frontend.handleGenerate s (.failure detail message)).1.error
              = some (Frontend.resolveErrorMessage detail message)
          ∧ (Frontend.handleGenerate s (.failure detail message)).1.loading = false)
    ∧ (∀ (s : Frontend.AppState) (fg bg : Frontend.UploadedFile) (detail message : Option String),
        s.foregroundFile = some fg → s.backgroundFile = some bg →
          (Frontend.handleGenerateV2 s (.failure detail message)).1.compositeUrl = none
          ∧ (Frontend.handleGenerateV2 s (.failure detail message)).1.shadowOnlyUrl = none
          ∧ (Frontend.handleGenerateV2 s (.failure detail message)).1.maskDebugUrl = none
          ∧ (Frontend.handleGenerateV2 s (.failure detail message)).1.error
              = some (Frontend.resolveErrorMessage detail message)
          ∧ (Frontend.handleGenerateV2 s (.failure detail message)).1.loading = false) := by
  constructor
  · intro s fg bg detail message hfg hbg
    simp [Frontend.handleGenerate, hfg, hbg]
  · intro s fg bg detail message hfg hbg
    simp [Frontend.handleGenerateV2, hfg, hbg]

/-- Witness for C10 on a concrete state with both files present and a
concrete failed request with no response detail and no error message. -/
theorem claim_C10_witness :
    (Frontend.handleGenerate Frontend.sampleStateBoth (.failure none none)).1.compositeUrl = none
    ∧ (Frontend.handleGenerate Frontend.sampleStateBoth (.failure none none)).1.shadowOnlyUrl = none
    ∧ (Frontend.handleGenerate Frontend.sampleStateBoth (.failure none none)).1.maskDebugUrl = none
    ∧ (Frontend.handleGenerate Frontend.sampleStateBoth (.failure none none)).1.error
        = some (Frontend.resolveErrorMessage none none) :=
  let h := claim_C10_failure_clears_urls.1 Frontend.sampleStateBoth ⟨1⟩ ⟨2⟩ none none rfl rfl
  ⟨h.1, h.2.1, h.2.2.1, h.2.2.2.1⟩
